import Mathlib

/-!
Shallow embedding of the Melody piano-tutorial engine.

Two implementations of the `PianoLearningApp` class exist in the repository:
the enhanced app (`src/unnamed/part_000`, with a tempo multiplier, a 100 ms
delay floor, notifications and a `setTimeout` playback timer) and the MVP
frontend (`src/frontend/script.js`, with the finger heuristic, sample demo
data and a duration-based timeout).  Both are embedded below: the enhanced
app as `AppState` with its operations, the MVP as `MVPState`.

DOM elements are modelled by explicit view-state fields: the set of piano
keys carrying the CSS class `active`, the finger indicators carrying `show`,
the hand-diagram fingers carrying `finger-active`, and the textual readouts.
Scheduling (`setTimeout`) is modelled by an `Option` field holding the delay
of the single outstanding scheduled advance; firing the timer consumes the
field and runs the callback (`playNextNote`).  Time quantities are rationals
(milliseconds / seconds as in the source).
-/

/-- Playing hand of a note (`note.hand` in the source, `'left'`/`'right'`). -/
inductive Hand where
  | left
  | right
  deriving Repr, DecidableEq

/-- Finger labels returned by `assignFingerToNote` and used as SVG element
ids in `src/frontend/script.js` (`'thumb'` .. `'pinky'`). -/
inductive Finger where
  | thumb
  | index
  | middle
  | ring
  | pinky
  deriving Repr, DecidableEq

/-- Note event of the enhanced app (`src/unnamed/part_000`): produced by the
backend with `pitch`, `midi`, `offset` (seconds), `duration` (seconds),
a numeric `finger` (1..5), a `finger_name` and a `hand`. -/
structure Note where
  pitch : String
  midi : Nat
  offset : ℚ
  duration : ℚ
  finger : Nat
  fingerName : String
  hand : Hand
  deriving Repr, DecidableEq

/-- Note event of the MVP frontend (`src/frontend/script.js`): its sample
data carries `pitch`, `midi`, `duration` and a label `finger`; no offset. -/
structure MVPNote where
  pitch : String
  midi : Nat
  duration : ℚ
  finger : Finger
  hand : Hand
  deriving Repr, DecidableEq

/-- Finger-assignment heuristic `assignFingerToNote` of
`src/frontend/script.js` lines 101-114, keyed on `midi % 12`. -/
def assignFingerToNote (midi : Nat) : Finger :=
  let noteInOctave := midi % 12
  if noteInOctave ≤ 1 then Finger.thumb
  else if noteInOctave ≤ 3 then Finger.index
  else if noteInOctave ≤ 5 then Finger.middle
  else if noteInOctave ≤ 7 then Finger.ring
  else if noteInOctave ≤ 9 then Finger.pinky
  else Finger.pinky

/-- Pitch classes of `noteToMidi`'s `noteMap` in `src/unnamed/part_000`. -/
inductive PitchClass where
  | C | Cs | D | Ds | E | F | Fs | G | Gs | A | As | B
  deriving Repr, DecidableEq

/-- The `noteMap` of `noteToMidi` (`src/unnamed/part_000` lines 423-436). -/
def noteMap : PitchClass → Nat
  | .C => 0 | .Cs => 1 | .D => 2 | .Ds => 3 | .E => 4 | .F => 5
  | .Fs => 6 | .G => 7 | .Gs => 8 | .A => 9 | .As => 10 | .B => 11

/-- Embeds `noteToMidi`: `(octave + 1) * 12 + noteMap[note]` (string parsing of
names such as `"C#4"` is elided; a name is a pitch class plus an octave). -/
def noteToMidi (pc : PitchClass) (octave : Nat) : Nat :=
  (octave + 1) * 12 + noteMap pc

/-- The `keyPattern` of `createPianoKeys` (`src/unnamed/part_000` lines
56-64): each white key's pitch class, paired with the sharp key created
after it when `hasSharp` is true. -/
def keyPattern : List (PitchClass × Option PitchClass) :=
  [(.C, some .Cs), (.D, some .Ds), (.E, none), (.F, some .Fs),
   (.G, some .Gs), (.A, some .As), (.B, none)]

/-- The `data-midi` values of the keys created by `createPianoKeys`
(`src/unnamed/part_000` lines 74-97): octaves 3..5 of `keyPattern`. -/
def keyboardMidis : List Nat :=
  ([3, 4, 5] : List Nat).flatMap fun oct =>
    keyPattern.flatMap fun ki =>
      noteToMidi ki.1 oct ::
        (match ki.2 with
         | some sharp => [noteToMidi sharp oct]
         | none => [])

/-- View state of the enhanced app: the DOM bits that
`highlightKey` / `highlightFinger` / `displayCurrentNote` /
`updateProgress` / the clear helpers mutate. -/
structure ViewState where
  /-- midis of piano keys carrying the class `active`. -/
  activeKeys : List Nat
  /-- Pairs (midi, finger text) of finger indicators carrying the class `show`. -/
  shownIndicators : List (Nat × Nat)
  /-- Pairs (hand, data-finger) of diagram fingers carrying `finger-active`. -/
  activeFingers : List (Hand × Nat)
  /-- Embeds `#current-note` text. -/
  currentNoteText : String
  /-- Embeds `#finger-info` text. -/
  fingerInfoText : String
  /-- Embeds `#hand-position` text. -/
  handPositionText : String
  /-- Embeds `#current-time` value in seconds (formatting elided). -/
  currentTimeSecs : ℚ
  /-- Embeds `#progress-fill` / `#progress-text` percentage. -/
  progressPercent : ℚ
  /-- Embeds `#notes-played` counter. -/
  notesPlayed : Nat
  deriving Repr, DecidableEq

/-- State of the enhanced app (`src/unnamed/part_000` constructor lines
3-13).  `playbackTimer` holds the delay (ms) of the single outstanding
scheduled advance, `none` when no advance is scheduled.  `notifications`
records `showNotification` calls as (message, type), newest first.
`handPositions` is stored by `loadMIDI` but never read again and is
omitted. -/
structure AppState where
  notes : List Note
  currentNoteIndex : Nat
  isPlaying : Bool
  playbackSpeed : ℚ
  playbackTimer : Option ℚ
  notifications : List (String × String)
  view : ViewState
  deriving Repr, DecidableEq

/-- Embeds `clearKeyHighlights` (lines 331-339): removes `active` from every piano
key and `show` from every finger indicator. -/
def clearKeyHighlights (v : ViewState) : ViewState :=
  { v with activeKeys := [], shownIndicators := [] }

/-- Embeds `clearFingerHighlights` (lines 341-346): removes `finger-active` from
every diagram finger (restoring `finger-base`). -/
def clearFingerHighlights (v : ViewState) : ViewState :=
  { v with activeFingers := [] }

/-- Embeds `clearAllHighlights` (lines 326-329). -/
def clearAllHighlights (v : ViewState) : ViewState :=
  clearFingerHighlights (clearKeyHighlights v)

/-- Embeds `highlightKey` (lines 294-310): clear all key highlights, then mark the
key whose `data-midi` matches the note `active` — when such a key exists in
the rendered keyboard — and show its finger indicator with `note.finger`. -/
def highlightKey (note : Note) (v : ViewState) : ViewState :=
  let v := clearKeyHighlights v
  if note.midi ∈ keyboardMidis then
    { v with activeKeys := [note.midi],
             shownIndicators := [(note.midi, note.finger)] }
  else v

/-- Embeds `highlightFinger` (lines 312-324): clear all finger highlights, then
mark `finger-active` the diagram finger of `note.hand` whose `data-finger`
matches `note.finger`; the diagrams have fingers 1..5. -/
def highlightFinger (note : Note) (v : ViewState) : ViewState :=
  let v := clearFingerHighlights v
  if 1 ≤ note.finger ∧ note.finger ≤ 5 then
    { v with activeFingers := [(note.hand, note.finger)] }
  else v

/-- Embeds `displayCurrentNote` (lines 287-292): textual readouts. -/
def displayCurrentNote (note : Note) (v : ViewState) : ViewState :=
  { v with currentNoteText := note.pitch,
           fingerInfoText := toString note.finger ++ " (" ++ note.fingerName ++ ")",
           handPositionText := if note.hand = Hand.right then "Right Hand" else "Left Hand",
           currentTimeSecs := note.offset }

/-- Embeds `render note` — §4.4's Highlight Synchronizer step: the three view
updates `playNextNote` performs for the current note (lines 269-271),
in source order. -/
def render (note : Note) (v : ViewState) : ViewState :=
  highlightFinger note (highlightKey note (displayCurrentNote note v))

/-- Embeds `updateProgress` (lines 348-353): percentage and notes-played counter
derived from the current index and sequence length. -/
def updateProgress (s : AppState) : AppState :=
  let progress : ℚ :=
    if s.notes.length > 0 then
      (s.currentNoteIndex : ℚ) / (s.notes.length : ℚ) * 100
    else 0
  { s with view := { s.view with progressPercent := progress,
                                 notesPlayed := s.currentNoteIndex } }

/-- Embeds `pausePlayback` (lines 241-248): stop playing and `clearTimeout` the
pending scheduled advance, if any. -/
def pausePlayback (s : AppState) : AppState :=
  { s with isPlaying := false, playbackTimer := none }

/-- Embeds `resetPlayback` (lines 250-259): pause, rewind the cursor, clear all
highlights, recompute progress, reset the textual readouts. -/
def resetPlayback (s : AppState) : AppState :=
  let s := pausePlayback s
  let s := { s with currentNoteIndex := 0 }
  let s := { s with view := clearAllHighlights s.view }
  let s := updateProgress s
  { s with view := { s.view with currentNoteText := "None",
                                 fingerInfoText := "None",
                                 handPositionText := "None",
                                 currentTimeSecs := 0 } }

/-- The raw delay of `playNextNote` (lines 275-278): offset difference to
the next note when one exists, else the current note's duration, scaled by
1000 and divided by the playback speed. -/
def rawDelay (note : Note) (nextNote : Option Note) (speed : ℚ) : ℚ :=
  match nextNote with
  | some next => (next.offset - note.offset) * 1000 / speed
  | none => note.duration * 1000 / speed

/-- Embeds `playNextNote` (lines 261-285), one synchronous execution: on a stopped
or exhausted state, pause and notify completion; otherwise display and
highlight the note at the cursor, update progress (before the increment, as
in the source), increment the cursor, and arm a single scheduled advance
after `Math.max(delay, 100)` milliseconds. -/
def playNextNote (s : AppState) : AppState :=
  if s.isPlaying = false ∨ s.notes.length ≤ s.currentNoteIndex then
    let s := pausePlayback s
    { s with notifications := ("Playback completed!", "success") :: s.notifications }
  else
    match s.notes[s.currentNoteIndex]? with
    | none => s
    | some note =>
      let v := render note s.view
      let nextNote := s.notes[s.currentNoteIndex + 1]?
      let delay := rawDelay note nextNote s.playbackSpeed
      let s := updateProgress { s with view := v }
      let s := { s with currentNoteIndex := s.currentNoteIndex + 1 }
      { s with playbackTimer := some (max delay 100) }

/-- Embeds `startPlayback` (lines 229-239): reject an empty sequence with a
user-visible warning; otherwise start playing and run `playNextNote`. -/
def startPlayback (s : AppState) : AppState :=
  if s.notes.length = 0 then
    { s with notifications := ("Please load a MIDI file first", "warning") :: s.notifications }
  else
    playNextNote { s with isPlaying := true }

/-- Embeds `togglePlayback` (lines 221-227). -/
def togglePlayback (s : AppState) : AppState :=
  if s.isPlaying then pausePlayback s else startPlayback s

/-- The scheduled advance firing: the `setTimeout` callback of
`playNextNote` (lines 282-284) runs `playNextNote` once the armed timer
elapses; firing consumes the pending handle. -/
def timerFire (s : AppState) : AppState :=
  match s.playbackTimer with
  | some _ => playNextNote { s with playbackTimer := none }
  | none => s

/-- Embeds `setTempo` (lines 355-358): update the speed multiplier only. -/
def setTempo (speed : ℚ) (s : AppState) : AppState :=
  { s with playbackSpeed := speed }

/-- The key codes dispatched by `handleKeyboard` (lines 383-410). -/
inductive KeyCode where
  | space
  | arrowRight
  | arrowLeft
  | keyR
  deriving Repr, DecidableEq

/-- Embeds `handleKeyboard` (lines 383-410).  ArrowRight: only while not playing
and the cursor is below the length, increment the cursor, display the note
at the new cursor minus one, update progress.  ArrowLeft: only while not
playing and the cursor is positive, decrement the cursor, display the note
at the new cursor, update progress. -/
def handleKeyboard (code : KeyCode) (s : AppState) : AppState :=
  match code with
  | .space => togglePlayback s
  | .arrowRight =>
    if s.isPlaying = false ∧ s.currentNoteIndex < s.notes.length then
      let s := { s with currentNoteIndex := s.currentNoteIndex + 1 }
      let s :=
        match s.notes[s.currentNoteIndex - 1]? with
        | some n => { s with view := displayCurrentNote n s.view }
        | none => s
      updateProgress s
    else s
  | .arrowLeft =>
    if s.isPlaying = false ∧ 0 < s.currentNoteIndex then
      let s := { s with currentNoteIndex := s.currentNoteIndex - 1 }
      let s :=
        match s.notes[s.currentNoteIndex]? with
        | some n => { s with view := displayCurrentNote n s.view }
        | none => s
      updateProgress s
    else s
  | .keyR => resetPlayback s

/-- Embeds `seekForward` — the ArrowRight action of `handleKeyboard`. -/
def seekForward (s : AppState) : AppState :=
  handleKeyboard KeyCode.arrowRight s

/-- Embeds `seekBack` — the ArrowLeft action of `handleKeyboard`. -/
def seekBack (s : AppState) : AppState :=
  handleKeyboard KeyCode.arrowLeft s

/-- The success branch of the enhanced app's `loadMIDI` (lines 175-198):
store the parsed notes and show a success notification.  The cursor, the
playing flag and the pending timer are not touched (difficulty display,
button enabling and the total-notes readout are view details elided
here). -/
def loadMIDIsuccess (s : AppState) (newNotes : List Note) : AppState :=
  { s with notes := newNotes,
           notifications := ("MIDI file loaded successfully!", "success") :: s.notifications }

/-- The catch branch of the enhanced app's `loadMIDI` (lines 199-202):
log and show an error notification; the stored notes are left unchanged
and no fallback sequence is substituted. -/
def loadMIDIfailure (s : AppState) : AppState :=
  { s with notifications :=
      ("Error loading MIDI file. Make sure the backend is running.", "error") :: s.notifications }

/-- Initial view: highlight-free, readouts at their reset values. -/
def initView : ViewState :=
  { activeKeys := []
    shownIndicators := []
    activeFingers := []
    currentNoteText := "None"
    fingerInfoText := "None"
    handPositionText := "None"
    currentTimeSecs := 0
    progressPercent := 0
    notesPlayed := 0 }

/-- The enhanced app's constructor state (lines 3-13): empty sequence,
cursor 0, not playing, speed 1.0, no timer. -/
def initState : AppState :=
  { notes := []
    currentNoteIndex := 0
    isPlaying := false
    playbackSpeed := 1
    playbackTimer := none
    notifications := []
    view := initView }

/-- A sample note fixture in the shape the backend delivers (a C4 struck at
0 s). -/
def demoNote : Note :=
  { pitch := "C4", midi := 60, offset := 0, duration := 1,
    finger := 1, fingerName := "thumb", hand := Hand.right }

/-- A second fixture, struck at 1 s. -/
def demoNote2 : Note :=
  { pitch := "D4", midi := 62, offset := 1, duration := 1,
    finger := 2, fingerName := "index", hand := Hand.right }

/-- The cursor invariant of §3: the cursor stays within the loaded
sequence's bounds, `length` being the terminal position. -/
def cursorInv (s : AppState) : Prop :=
  s.currentNoteIndex ≤ s.notes.length

/-- View state of the MVP frontend: keys and diagram fingers carrying the
class `active`, plus the `#current-note` readout. -/
structure MVPView where
  activeKeys : List Nat
  activeFingers : List Finger
  currentNoteText : String
  deriving Repr, DecidableEq

/-- The `data-midi` values created by the MVP's `createPianoKeys`
(`src/frontend/script.js` lines 18-44): white keys get `60 + index`, black
keys `61 + index` (so several values collide, as in the source). -/
def mvpKeyboardMidis : List Nat :=
  (List.range 7).map (fun i => 60 + i) ++ (List.range 5).map (fun i => 61 + i)

/-- State of the MVP frontend app (`src/frontend/script.js` constructor
lines 2-9).  `pendingTimeout` models the single `setTimeout` armed by
`playNextNote`; the source's `animationId` is never assigned, so `pause()`
cancels nothing. -/
structure MVPState where
  notes : List MVPNote
  currentNoteIndex : Nat
  isPlaying : Bool
  pendingTimeout : Bool
  view : MVPView
  deriving Repr, DecidableEq

/-- Embeds `clearHighlights` (script.js lines 136-146). -/
def clearHighlights (v : MVPView) : MVPView :=
  { v with activeKeys := [], activeFingers := [] }

/-- Embeds `showHandPosition` (script.js lines 116-134): clear, highlight the key
matching the note's midi when rendered, highlight the finger element (the
five finger ids always exist), update the info panel. -/
def showHandPosition (note : MVPNote) (v : MVPView) : MVPView :=
  let v := clearHighlights v
  let v :=
    if note.midi ∈ mvpKeyboardMidis then { v with activeKeys := [note.midi] }
    else v
  { v with activeFingers := [note.finger], currentNoteText := note.pitch }

/-- Embeds `updateInfo` (script.js lines 159-163): when notes are loaded, render
the note at the cursor.  When the cursor is out of range the source would
pass `undefined` to `showHandPosition` and throw; that unreachable-by-spec
path is modelled as leaving the view unchanged. -/
def updateInfo (s : MVPState) : MVPState :=
  if 0 < s.notes.length then
    match s.notes[s.currentNoteIndex]? with
    | some n => { s with view := showHandPosition n s.view }
    | none => s
  else s

/-- The sample demo sequence of `loadSampleData` (script.js lines 85-99). -/
def sampleNotes : List MVPNote :=
  [ { pitch := "C4", midi := 60, duration := 1, finger := Finger.thumb, hand := Hand.right },
    { pitch := "D4", midi := 62, duration := 1, finger := Finger.index, hand := Hand.right },
    { pitch := "E4", midi := 64, duration := 1, finger := Finger.middle, hand := Hand.right },
    { pitch := "F4", midi := 65, duration := 1, finger := Finger.thumb, hand := Hand.right },
    { pitch := "G4", midi := 67, duration := 1, finger := Finger.index, hand := Hand.right },
    { pitch := "A4", midi := 69, duration := 1, finger := Finger.middle, hand := Hand.right },
    { pitch := "B4", midi := 71, duration := 1, finger := Finger.ring, hand := Hand.right },
    { pitch := "C5", midi := 72, duration := 1, finger := Finger.pinky, hand := Hand.right } ]

/-- Embeds `loadSampleData` (script.js lines 85-99): replace the notes with the
sample demo sequence (the cursor is not reset) and run `updateInfo`. -/
def loadSampleData (s : MVPState) : MVPState :=
  updateInfo { s with notes := sampleNotes }

/-- Embeds `pause` (script.js lines 182-189): stop playing.
`cancelAnimationFrame(this.animationId)` is a no-op because `animationId`
is never assigned; in particular the pending `setTimeout` of
`playNextNote` is NOT cancelled. -/
def pauseMVP (s : MVPState) : MVPState :=
  { s with isPlaying := false }

/-- Embeds `playNextNote` (script.js lines 191-205), one synchronous execution:
on a stopped or exhausted state, pause; otherwise render the note at the
cursor and arm a timeout for `duration * 1000` ms whose callback
increments the cursor and recurses. -/
def playNextNoteMVP (s : MVPState) : MVPState :=
  if s.isPlaying = false ∨ s.notes.length ≤ s.currentNoteIndex then
    pauseMVP s
  else
    match s.notes[s.currentNoteIndex]? with
    | none => s
    | some note =>
      { s with view := showHandPosition note s.view, pendingTimeout := true }

/-- The MVP timeout firing (script.js lines 201-204): increment the cursor,
then run `playNextNote` again; firing consumes the pending timeout. -/
def timeoutFireMVP (s : MVPState) : MVPState :=
  if s.pendingTimeout then
    playNextNoteMVP
      { s with pendingTimeout := false, currentNoteIndex := s.currentNoteIndex + 1 }
  else s

/-- Embeds `play` (script.js lines 173-180): silently return on an empty sequence
(no notification surface exists in the MVP); otherwise start playing and
run `playNextNote`. -/
def playMVP (s : MVPState) : MVPState :=
  if s.notes.length = 0 then s
  else playNextNoteMVP { s with isPlaying := true }

/-- Embeds `reset` (script.js lines 207-212). -/
def resetMVP (s : MVPState) : MVPState :=
  let s := { s with currentNoteIndex := 0 }
  let s := pauseMVP s
  let s := { s with view := clearHighlights s.view }
  updateInfo s

/-- The success branch of the MVP's `loadMIDI` (script.js lines 230-236,
`data.success` true): replace the notes, reset the cursor to 0 and run
`updateInfo`.  The playing flag and pending timeout are not touched. -/
def loadMIDIsuccessMVP (s : MVPState) (newNotes : List MVPNote) : MVPState :=
  updateInfo { s with notes := newNotes, currentNoteIndex := 0 }

/-- The catch branch of the MVP's `loadMIDI` (script.js lines 241-245):
log to the console (not user-visible) and fall back to the sample demo
sequence. -/
def loadMIDIfailureMVP (s : MVPState) : MVPState :=
  loadSampleData s

/-- The MVP constructor state (script.js lines 2-9; `init` then loads the
sample data, modelled separately so both points are available). -/
def initMVPState : MVPState :=
  { notes := []
    currentNoteIndex := 0
    isPlaying := false
    pendingTimeout := false
    view := { activeKeys := [], activeFingers := [], currentNoteText := "" } }

/-- The MVP's `updateInfo` only touches the view. -/
@[simp]
theorem updateInfo_notes (s : MVPState) : (updateInfo s).notes = s.notes := by
  unfold updateInfo
  split
  · split <;> rfl
  · rfl

/-- The MVP's `updateInfo` leaves the cursor unchanged. -/
@[simp]
theorem updateInfo_cursor (s : MVPState) :
    (updateInfo s).currentNoteIndex = s.currentNoteIndex := by
  unfold updateInfo
  split
  · split <;> rfl
  · rfl

/-- The MVP's `updateInfo` leaves the playing flag unchanged. -/
@[simp]
theorem updateInfo_isPlaying (s : MVPState) : (updateInfo s).isPlaying = s.isPlaying := by
  unfold updateInfo
  split
  · split <;> rfl
  · rfl

/-- The MVP's `updateInfo` leaves the pending timeout unchanged. -/
@[simp]
theorem updateInfo_pendingTimeout (s : MVPState) :
    (updateInfo s).pendingTimeout = s.pendingTimeout := by
  unfold updateInfo
  split
  · split <;> rfl
  · rfl

/-- Projection: `updateProgress` only touches the view: notes unchanged. -/
@[simp]
theorem updateProgress_notes (s : AppState) : (updateProgress s).notes = s.notes := rfl

/-- Projection: `updateProgress` leaves the cursor unchanged. -/
@[simp]
theorem updateProgress_cursor (s : AppState) :
    (updateProgress s).currentNoteIndex = s.currentNoteIndex := rfl

/-- Projection: `updateProgress` leaves the playing flag unchanged. -/
@[simp]
theorem updateProgress_isPlaying (s : AppState) :
    (updateProgress s).isPlaying = s.isPlaying := rfl

/-- Projection: `updateProgress` leaves the timer unchanged. -/
@[simp]
theorem updateProgress_timer (s : AppState) :
    (updateProgress s).playbackTimer = s.playbackTimer := rfl

/-- Projection: `updateProgress` keeps the `#current-note` readout. -/
@[simp]
theorem updateProgress_currentNoteText (s : AppState) :
    (updateProgress s).view.currentNoteText = s.view.currentNoteText := rfl

/-- C4: for every non-negative integer midi number, `assignFingerToNote`
returns exactly the finger of the spec's table keyed on `midi % 12`
(0-1 thumb, 2-3 index, 4-5 middle, 6-7 ring, 8-11 pinky), and in
particular maps 60, 62, 65, 67, 70 to thumb, index, middle, ring, pinky
respectively. -/
theorem assignFinger_table :
    (∀ m : Nat, m % 12 ≤ 1 → assignFingerToNote m = Finger.thumb) ∧
    (∀ m : Nat, 2 ≤ m % 12 → m % 12 ≤ 3 → assignFingerToNote m = Finger.index) ∧
    (∀ m : Nat, 4 ≤ m % 12 → m % 12 ≤ 5 → assignFingerToNote m = Finger.middle) ∧
    (∀ m : Nat, 6 ≤ m % 12 → m % 12 ≤ 7 → assignFingerToNote m = Finger.ring) ∧
    (∀ m : Nat, 8 ≤ m % 12 → m % 12 ≤ 11 → assignFingerToNote m = Finger.pinky) ∧
    assignFingerToNote 60 = Finger.thumb ∧ assignFingerToNote 62 = Finger.index ∧
    assignFingerToNote 65 = Finger.middle ∧ assignFingerToNote 67 = Finger.ring ∧
    assignFingerToNote 70 = Finger.pinky := by
  refine ⟨?_, ?_, ?_, ?_, ?_, by decide, by decide, by decide, by decide, by decide⟩
  · intro m h
    simp only [assignFingerToNote]
    rw [if_pos h]
  · intro m h1 h2
    simp only [assignFingerToNote]
    rw [if_neg (by omega), if_pos h2]
  · intro m h1 h2
    simp only [assignFingerToNote]
    rw [if_neg (by omega), if_neg (by omega), if_pos h2]
  · intro m h1 h2
    simp only [assignFingerToNote]
    rw [if_neg (by omega), if_neg (by omega), if_neg (by omega), if_pos h2]
  · intro m h1 _
    simp only [assignFingerToNote]
    rw [if_neg (by omega), if_neg (by omega), if_neg (by omega), if_neg (by omega)]
    split <;> rfl

/-- Witness for C4 at midi 62: the index range of the table. -/
theorem assignFinger_table_witness : assignFingerToNote 62 = Finger.index :=
  assignFinger_table.2.1 62 (by decide) (by decide)

/-- C8: `render` is idempotent — rendering the same note twice equals
rendering it once — and after any `render note v` there is at most one
active key, at most one shown finger indicator, and at most one active
finger per hand diagram, because each render clears all previous
highlights before marking the new ones. -/
theorem render_idempotent :
    ∀ (note : Note) (v : ViewState),
      render note (render note v) = render note v ∧
      (render note v).activeKeys.length ≤ 1 ∧
      (render note v).shownIndicators.length ≤ 1 ∧
      (∀ h : Hand,
        ((render note v).activeFingers.filter (fun p => p.1 == h)).length ≤ 1) := by
  intro note v
  by_cases hk : note.midi ∈ keyboardMidis <;>
    by_cases hf : 1 ≤ note.finger ∧ note.finger ≤ 5 <;>
      refine ⟨?_, ?_, ?_, ?_⟩ <;>
        first
          | (intro h
             simp only [render, highlightFinger, highlightKey, displayCurrentNote,
               clearFingerHighlights, clearKeyHighlights, hk, hf, if_pos, if_neg,
               not_false_iff, List.filter]
             split <;> simp)
          | simp [render, highlightFinger, highlightKey, displayCurrentNote,
              clearFingerHighlights, clearKeyHighlights, hk, hf]

/-- Counterexample for C3: the claim says `play()` on an empty sequence
issues a user-visible warning, but the MVP frontend's `play()` (a cited
source, `src/frontend/script.js` lines 173-180) is a bare early return
with no notification surface at all — on the initial empty-sequence state
the call leaves the state completely unchanged and emits nothing, so no
user-visible warning is issued. -/
theorem playMVP_empty_no_warning :
    playMVP initMVPState = initMVPState := by
  simp [playMVP, initMVPState]

/-- C3 (amended): on a state with an empty loaded sequence, `play` returns
without starting playback — it never sets `isPlaying` and leaves the
cursor unchanged; the enhanced app's `startPlayback` additionally emits
the user-visible warning notification and changes nothing else, while the
MVP's `play` returns silently with the state fully unchanged (it has no
warning to issue). -/
theorem startPlayback_empty :
    ∀ (s : AppState) (t : MVPState), s.notes = [] → t.notes = [] →
      startPlayback s =
        { s with notifications :=
            ("Please load a MIDI file first", "warning") :: s.notifications } ∧
      playMVP t = t := by
  intro s t hs ht
  constructor
  · simp [startPlayback, hs]
  · simp [playMVP, ht]

/-- Witness for C3 at the initial (empty-sequence) states. -/
theorem startPlayback_empty_witness :
    startPlayback initState =
      { initState with notifications :=
          ("Please load a MIDI file first", "warning") :: initState.notifications } ∧
    playMVP initMVPState = initMVPState :=
  startPlayback_empty initState initMVPState rfl rfl

/-- C9: on a non-empty sequence with the cursor at the terminal position,
`startPlayback` leaves the cursor unchanged and ends with
`isPlaying = false` (the completion path pauses immediately), so playback
cannot restart without a reset. -/
theorem startPlayback_completed :
    ∀ s : AppState, s.notes ≠ [] → s.currentNoteIndex = s.notes.length →
      (startPlayback s).currentNoteIndex = s.currentNoteIndex ∧
      (startPlayback s).isPlaying = false ∧
      (startPlayback s).notes = s.notes := by
  intro s hne hidx
  have hlen : ¬ s.notes.length = 0 := by simpa using hne
  simp [startPlayback, hlen, playNextNote, pausePlayback, hidx]

/-- C2: in every scheduled advance with a current note at the cursor, the
armed wait equals max(100 ms, (next.offset - current.offset) * 1000 /
speed) when a next note exists and max(100 ms, current.duration * 1000 /
speed) for the last note; a raw delay below the floor (in particular a
negative one from out-of-order offsets) is clamped to exactly 100 ms; and
for notes at offsets 0 s and 1 s the armed delay is 1000 ms at speed 1.0
and 500 ms at speed 2.0. -/
theorem playNextNote_delay :
    (∀ (s : AppState) (note : Note),
        s.isPlaying = true →
        s.notes[s.currentNoteIndex]? = some note →
        (playNextNote s).playbackTimer =
          some (match s.notes[s.currentNoteIndex + 1]? with
                | some next => max 100 ((next.offset - note.offset) * 1000 / s.playbackSpeed)
                | none => max 100 (note.duration * 1000 / s.playbackSpeed))) ∧
    (∀ (s : AppState) (note next : Note),
        s.isPlaying = true →
        s.notes[s.currentNoteIndex]? = some note →
        s.notes[s.currentNoteIndex + 1]? = some next →
        (next.offset - note.offset) * 1000 / s.playbackSpeed < 100 →
        (playNextNote s).playbackTimer = some 100) ∧
    (playNextNote { initState with
        notes := [demoNote, demoNote2], isPlaying := true }).playbackTimer = some 1000 ∧
    (playNextNote { initState with
        notes := [demoNote, demoNote2], isPlaying := true,
        playbackSpeed := 2 }).playbackTimer = some 500 := by
  have key : ∀ (s : AppState) (note : Note),
      s.isPlaying = true →
      s.notes[s.currentNoteIndex]? = some note →
      (playNextNote s).playbackTimer =
        some (match s.notes[s.currentNoteIndex + 1]? with
              | some next => max 100 ((next.offset - note.offset) * 1000 / s.playbackSpeed)
              | none => max 100 (note.duration * 1000 / s.playbackSpeed)) := by
    intro s note h1 h2
    have hlt : s.currentNoteIndex < s.notes.length := by
      by_contra hge
      rw [List.getElem?_eq_none (by omega)] at h2
      exact Option.noConfusion h2
    have hguard : ¬ (s.isPlaying = false ∨ s.notes.length ≤ s.currentNoteIndex) := by
      simp [h1]
      omega
    cases hnext : s.notes[s.currentNoteIndex + 1]? with
    | none => simp [playNextNote, hguard, h2, hnext, rawDelay, max_comm]
    | some next => simp [playNextNote, hguard, h2, hnext, rawDelay, max_comm]
  refine ⟨key, ?_, ?_, ?_⟩
  · intro s note next h1 h2 h3 hlow
    rw [key s note h1 h2, h3]
    simp [max_eq_left hlow.le]
  · norm_num [playNextNote, initState, demoNote, demoNote2, rawDelay]
  · norm_num [playNextNote, initState, demoNote, demoNote2, rawDelay]

/-- Witness for C2: out-of-order offsets (1 s then 0 s) yield a negative
raw delay, clamped to the 100 ms floor. -/
theorem playNextNote_delay_witness :
    (playNextNote { initState with
        notes := [demoNote2, demoNote], isPlaying := true }).playbackTimer = some 100 := by
  have h := playNextNote_delay.2.1
    { initState with notes := [demoNote2, demoNote], isPlaying := true }
    demoNote2 demoNote rfl rfl rfl (by norm_num [demoNote, demoNote2, initState])
  exact h

/-- While playing, the forward step is a no-op. -/
theorem seekForward_playing (s : AppState) (hp : s.isPlaying = true) :
    seekForward s = s := by
  simp [seekForward, handleKeyboard, hp]

/-- While playing, the back step is a no-op. -/
theorem seekBack_playing (s : AppState) (hp : s.isPlaying = true) :
    seekBack s = s := by
  simp [seekBack, handleKeyboard, hp]

/-- A forward step at or beyond the terminal position is a no-op. -/
theorem seekForward_out_of_range (s : AppState) (hp : s.isPlaying = false)
    (hge : s.notes.length ≤ s.currentNoteIndex) : seekForward s = s := by
  simp [seekForward, handleKeyboard, hp]
  omega

/-- A back step at position 0 is a no-op. -/
theorem seekBack_at_zero (s : AppState) (hp : s.isPlaying = false)
    (h0 : s.currentNoteIndex = 0) : seekBack s = s := by
  simp [seekBack, handleKeyboard, hp, h0]

/-- An in-range forward step while paused: the cursor moves up by one and
the display shows the note at the old cursor (the note just passed). -/
theorem seekForward_step (s : AppState) (note : Note) (hp : s.isPlaying = false)
    (hn : s.notes[s.currentNoteIndex]? = some note) :
    (seekForward s).currentNoteIndex = s.currentNoteIndex + 1 ∧
    (seekForward s).view.currentNoteText = note.pitch ∧
    (seekForward s).notes = s.notes ∧
    (seekForward s).isPlaying = false := by
  have hlt : s.currentNoteIndex < s.notes.length := by
    by_contra hge
    rw [List.getElem?_eq_none (by omega)] at hn
    exact Option.noConfusion hn
  simp [seekForward, handleKeyboard, hp, hlt, hn, displayCurrentNote]

/-- An in-range back step while paused: the cursor moves down by one and
the display shows the note at the new cursor (the note just stepped to). -/
theorem seekBack_step (s : AppState) (note : Note) (hp : s.isPlaying = false)
    (hpos : 0 < s.currentNoteIndex)
    (hn : s.notes[s.currentNoteIndex - 1]? = some note) :
    (seekBack s).currentNoteIndex = s.currentNoteIndex - 1 ∧
    (seekBack s).view.currentNoteText = note.pitch ∧
    (seekBack s).notes = s.notes ∧
    (seekBack s).isPlaying = false := by
  simp [seekBack, handleKeyboard, hp, hpos, hn, displayCurrentNote]

/-- C7: the manual seek steps act only while not playing; forward moves
the cursor up by one when below the length and displays the note at the
old cursor (one below the new cursor), back moves the cursor down by one
when positive and displays the note at the new cursor; out-of-range
requests and requests while playing leave the state unchanged. -/
theorem handleKeyboard_seek :
    ∀ s : AppState,
      (s.isPlaying = true → seekForward s = s ∧ seekBack s = s) ∧
      (s.isPlaying = false → s.notes.length ≤ s.currentNoteIndex → seekForward s = s) ∧
      (s.isPlaying = false → s.currentNoteIndex = 0 → seekBack s = s) ∧
      (∀ note, s.isPlaying = false → s.notes[s.currentNoteIndex]? = some note →
        (seekForward s).currentNoteIndex = s.currentNoteIndex + 1 ∧
        (seekForward s).view.currentNoteText = note.pitch ∧
        (seekForward s).notes = s.notes ∧
        (seekForward s).isPlaying = false) ∧
      (∀ note, s.isPlaying = false → 0 < s.currentNoteIndex →
        s.notes[s.currentNoteIndex - 1]? = some note →
        (seekBack s).currentNoteIndex = s.currentNoteIndex - 1 ∧
        (seekBack s).view.currentNoteText = note.pitch ∧
        (seekBack s).notes = s.notes ∧
        (seekBack s).isPlaying = false) := by
  intro s
  refine ⟨?_, ?_, ?_, ?_, ?_⟩
  · intro h
    exact ⟨seekForward_playing s h, seekBack_playing s h⟩
  · exact seekForward_out_of_range s
  · exact seekBack_at_zero s
  · intro note h1 h2
    exact seekForward_step s note h1 h2
  · intro note h1 h2 h3
    exact seekBack_step s note h1 h2 h3

/-- Witness for C7: stepping forward from cursor 0 of a two-note sequence
moves to cursor 1 and displays the first note. -/
theorem handleKeyboard_seek_witness :
    (seekForward { initState with notes := [demoNote, demoNote2] }).currentNoteIndex
        = ({ initState with notes := [demoNote, demoNote2] } : AppState).currentNoteIndex + 1 ∧
    (seekForward { initState with notes := [demoNote, demoNote2] }).view.currentNoteText
        = demoNote.pitch ∧
    (seekForward { initState with notes := [demoNote, demoNote2] }).notes
        = ({ initState with notes := [demoNote, demoNote2] } : AppState).notes ∧
    (seekForward { initState with notes := [demoNote, demoNote2] }).isPlaying = false :=
  (handleKeyboard_seek _).2.2.2.1 demoNote rfl rfl

/-- One synchronous `playNextNote` step keeps the cursor within the
sequence's bounds. -/
theorem playNextNote_cursorInv (s : AppState) (h : cursorInv s) :
    cursorInv (playNextNote s) := by
  unfold cursorInv at *
  unfold playNextNote
  by_cases hc : s.isPlaying = false ∨ s.notes.length ≤ s.currentNoteIndex
  · rw [if_pos hc]
    simpa [pausePlayback] using h
  · rw [if_neg hc]
    push_neg at hc
    obtain ⟨-, hlt⟩ := hc
    split
    · omega
    · simp only [updateProgress]
      omega

/-- C6 (amended): the cursor invariant `0 ≤ cursor ≤ length` is preserved
by play, pause, reset, toggle, both manual seeks, a scheduled advance
firing, tempo changes and the keyboard actions — every operation except
load; `loadMIDI` leaves the cursor untouched while replacing the sequence,
which is what breaks the invariant when the new sequence is shorter than
the cursor. -/
theorem cursorInv_preserved :
    ∀ s : AppState, cursorInv s →
      cursorInv (startPlayback s) ∧
      cursorInv (pausePlayback s) ∧
      cursorInv (resetPlayback s) ∧
      cursorInv (togglePlayback s) ∧
      cursorInv (seekForward s) ∧
      cursorInv (seekBack s) ∧
      cursorInv (timerFire s) ∧
      (∀ q, cursorInv (setTempo q s)) ∧
      cursorInv (handleKeyboard KeyCode.space s) ∧
      cursorInv (handleKeyboard KeyCode.keyR s) ∧
      (∀ ns, (loadMIDIsuccess s ns).currentNoteIndex = s.currentNoteIndex) := by
  intro s h
  have hstart : cursorInv (startPlayback s) := by
    unfold startPlayback
    by_cases he : s.notes.length = 0
    · rw [if_pos he]
      simpa [cursorInv] using h
    · rw [if_neg he]
      exact playNextNote_cursorInv _ (by simpa [cursorInv] using h)
  have hpause : cursorInv (pausePlayback s) := by
    simpa [cursorInv, pausePlayback] using h
  have hreset : cursorInv (resetPlayback s) := by
    simp [cursorInv, resetPlayback, pausePlayback, updateProgress, clearAllHighlights,
      clearKeyHighlights, clearFingerHighlights]
  have htoggle : cursorInv (togglePlayback s) := by
    unfold togglePlayback
    by_cases hp : s.isPlaying
    · rw [if_pos hp]
      exact hpause
    · rw [if_neg hp]
      exact hstart
  have hfwd : cursorInv (seekForward s) := by
    unfold cursorInv at *
    cases hp : s.isPlaying with
    | true =>
      rw [seekForward_playing s hp]
      exact h
    | false =>
      by_cases hlt : s.currentNoteIndex < s.notes.length
      · obtain ⟨h1, -, h3, -⟩ :=
          seekForward_step s _ hp (List.getElem?_eq_getElem hlt)
        rw [h1, h3]
        omega
      · rw [seekForward_out_of_range s hp (by omega)]
        exact h
  have hback : cursorInv (seekBack s) := by
    unfold cursorInv at *
    cases hp : s.isPlaying with
    | true =>
      rw [seekBack_playing s hp]
      exact h
    | false =>
      by_cases hpos : 0 < s.currentNoteIndex
      · have hlt2 : s.currentNoteIndex - 1 < s.notes.length := by omega
        obtain ⟨h1, -, h3, -⟩ :=
          seekBack_step s _ hp hpos (List.getElem?_eq_getElem hlt2)
        rw [h1, h3]
        omega
      · rw [seekBack_at_zero s hp (by omega)]
        exact h
  have hfire : cursorInv (timerFire s) := by
    unfold timerFire
    cases ht : s.playbackTimer with
    | none => exact h
    | some d => exact playNextNote_cursorInv _ (by simpa [cursorInv] using h)
  refine ⟨hstart, hpause, hreset, htoggle, hfwd, hback, hfire, ?_, htoggle, hreset, ?_⟩
  · intro q
    simpa [cursorInv, setTempo] using h
  · intro ns
    rfl

/-- Counterexample for C6: the claimed invariant `cursor ≤ length` over
all operation sequences fails, because `loadMIDI` never resets the
cursor: load a one-note sequence, step forward (cursor 1), then load an
empty sequence — the cursor is 1 but the length is 0. -/
theorem cursorInv_violated_by_load :
    ¬ cursorInv (loadMIDIsuccess (seekForward (loadMIDIsuccess initState [demoNote])) []) := by
  intro hcontra
  unfold cursorInv at hcontra
  have h1 : (loadMIDIsuccess (seekForward (loadMIDIsuccess initState [demoNote])) []).currentNoteIndex = 1 := by
    simp [loadMIDIsuccess, seekForward, handleKeyboard, initState, initView, demoNote,
      displayCurrentNote]
  have h2 : (loadMIDIsuccess (seekForward (loadMIDIsuccess initState [demoNote])) []).notes.length = 0 := by
    simp [loadMIDIsuccess]
  omega

/-- Witness for C6 (amended) at the initial state, tempo set to 2. -/
theorem cursorInv_preserved_witness :
    cursorInv (seekForward initState) ∧ cursorInv (setTempo 2 initState) := by
  have h := cursorInv_preserved initState (by simp [cursorInv, initState])
  exact ⟨h.2.2.2.2.1, h.2.2.2.2.2.2.2.1 2⟩

/-- Counterexample for C1: a successful load does not reset the cursor,
does not cancel the pending scheduled advance and does not force
`isPlaying` to false — on a playing state with cursor 2 and a pending
500 ms timer, all three persist after the load. -/
theorem load_does_not_reset :
    ¬ ((loadMIDIsuccess { initState with
          currentNoteIndex := 2, isPlaying := true,
          playbackTimer := some 500 } [demoNote]).currentNoteIndex = 0 ∧
       (loadMIDIsuccess { initState with
          currentNoteIndex := 2, isPlaying := true,
          playbackTimer := some 500 } [demoNote]).isPlaying = false) := by
  simp [loadMIDIsuccess, initState]

/-- C1 (amended): a successful load replaces the stored sequence
wholesale; in the enhanced app the cursor, the playing flag and the
pending scheduled advance are left untouched (only a success notification
is added), while in the MVP frontend the cursor is additionally reset to
0 but the playing flag and pending timeout are still untouched. -/
theorem load_replaces_sequence :
    ∀ (s : AppState) (ns : List Note) (t : MVPState) (ms : List MVPNote),
      loadMIDIsuccess s ns =
        { s with notes := ns,
                 notifications :=
                   ("MIDI file loaded successfully!", "success") :: s.notifications } ∧
      (loadMIDIsuccessMVP t ms).notes = ms ∧
      (loadMIDIsuccessMVP t ms).currentNoteIndex = 0 ∧
      (loadMIDIsuccessMVP t ms).isPlaying = t.isPlaying ∧
      (loadMIDIsuccessMVP t ms).pendingTimeout = t.pendingTimeout := by
  intro s ns t ms
  refine ⟨rfl, ?_, ?_, ?_, ?_⟩ <;> simp [loadMIDIsuccessMVP]

/-- Counterexample for C5: `loadMIDI` does not synchronously invalidate a
pending scheduled advance — a 500 ms timer pending at load time is still
pending after the load, and with `isPlaying` untouched it will fire
against the newly loaded sequence. -/
theorem load_leaves_timer_pending :
    ¬ ((loadMIDIsuccess { initState with
          isPlaying := true, playbackTimer := some 500 } [demoNote]).playbackTimer = none) := by
  simp [loadMIDIsuccess, initState]

/-- C5 (amended): `pausePlayback` and `resetPlayback` synchronously cancel
any pending scheduled advance before returning; `loadMIDI` (both its
success and failure branches) does not cancel, leaving any pending advance
outstanding across the load. -/
theorem cancellation_pause_reset_not_load :
    ∀ s : AppState,
      (pausePlayback s).playbackTimer = none ∧
      (resetPlayback s).playbackTimer = none ∧
      (∀ ns, (loadMIDIsuccess s ns).playbackTimer = s.playbackTimer) ∧
      (loadMIDIfailure s).playbackTimer = s.playbackTimer := by
  intro s
  exact ⟨rfl, rfl, fun ns => rfl, rfl⟩

/-- Counterexample for C10: on a load failure the enhanced app does not
fall back to any demo sequence — starting from the initial (empty) state,
the sequence after the failure is still empty, contradicting the claim
that a non-empty sequence is retained or substituted. -/
theorem loadFailure_no_fallback :
    (loadMIDIfailure initState).notes = [] :=
  rfl

/-- C10 (amended): on a load failure the enhanced app surfaces a
user-visible error notification but retains the previous sequence
unchanged — possibly empty, with no demo fallback — while the MVP
frontend substitutes the built-in non-empty sample demo sequence but
surfaces no user-visible notification (only a console log); neither
branch touches the playing flag. -/
theorem loadFailure_behavior :
    ∀ (s : AppState) (t : MVPState),
      (loadMIDIfailure s).notes = s.notes ∧
      (loadMIDIfailure s).notifications =
        ("Error loading MIDI file. Make sure the backend is running.", "error")
          :: s.notifications ∧
      (loadMIDIfailureMVP t).notes = sampleNotes ∧
      sampleNotes ≠ [] ∧
      (loadMIDIfailureMVP t).isPlaying = t.isPlaying := by
  intro s t
  refine ⟨rfl, rfl, ?_, by simp [sampleNotes], ?_⟩ <;>
    simp [loadMIDIfailureMVP, loadSampleData]
theorem startPlayback_completed_witness :
    (startPlayback { initState with notes := [demoNote], currentNoteIndex := 1 }).currentNoteIndex
        = ({ initState with notes := [demoNote], currentNoteIndex := 1 } : AppState).currentNoteIndex ∧
    (startPlayback { initState with notes := [demoNote], currentNoteIndex := 1 }).isPlaying = false ∧
    (startPlayback { initState with notes := [demoNote], currentNoteIndex := 1 }).notes
        = ({ initState with notes := [demoNote], currentNoteIndex := 1 } : AppState).notes :=
  startPlayback_completed _ (by simp) (by simp [initState])
